import Mathlib

/-!
# primer3 R bindings: the batch wrappers of `src/primer3_calls.cpp`

A shallow embedding of the exported wrappers `call_oligo_tm`, `call_seq_tm`,
`is_thal_init`, `call_thal_init` and `call_thal`.

Conventions of the embedding.

* A C `double` is its IEEE-754 binary64 bit pattern; the only operations the
  wrappers perform on doubles are copying and `!=`.
* An Rcpp vector is a `List`; a subscript that falls outside the vector is a
  `Fault` (the C++ code has undefined behaviour there), so every function that
  subscripts a vector returns `Except Fault _`.
* `int n = v.size()` is the list length: batches are ordinary R vectors,
  whose length fits an `int`.
* `oligotm`, `seqtm`, `thal`, `get_thermodynamic_values` and the global
  `config_loaded` come from `oligotm.h` and `thal.h`; their definitions are
  outside the wrapper file, so they are parameters of the embedding.
-/

namespace Primer3

/-! ## Doubles -/

/-- A C `double`, as its 64-bit IEEE-754 pattern (sign, 11 exponent bits,
52 fraction bits). -/
structure Double where
  bits : Nat
deriving DecidableEq, Repr

namespace Double

/-- The biased exponent field. -/
def exponent (x : Double) : Nat := (x.bits / 2 ^ 52) % 2 ^ 11

/-- The fraction field. -/
def fraction (x : Double) : Nat := x.bits % 2 ^ 52

/-- The C predicate `isnan`. -/
def isNaN (x : Double) : Bool := x.exponent == 2047 && x.fraction != 0

/-- Positive or negative zero. -/
def isZero (x : Double) : Bool := x.exponent == 0 && x.fraction == 0

/-- The C comparison `x != y` on doubles: true when either side is a NaN,
otherwise false exactly when both sides denote the same number. -/
def ne (x y : Double) : Bool :=
  x.isNaN || y.isNaN || !(x.bits == y.bits || (x.isZero && y.isZero))

/-- The double `0.0`, with which Rcpp fills a fresh `NumericVector`. -/
def zero : Double := ⟨0⟩

end Double

/-- The local `double NULL_REAL = 123456789.123456789;` of `call_thal`: the
binary64 nearest to that decimal, `0x419D6F34547E6B75`. -/
def NULL_REAL : Double := ⟨0x419D6F34547E6B75⟩

/-- R's `NA_REAL`: the NaN whose low word is 1954, `0x7FF00000000007A2`. -/
def NA_REAL : Double := ⟨0x7FF00000000007A2⟩

/-- R's `R_IsNA`: a NaN whose low 32-bit word is 1954. -/
def isNA (x : Double) : Bool := x.isNaN && x.bits % 2 ^ 32 == 1954

/-- A subscript outside a vector. -/
inductive Fault where
  | subscript_out_of_bounds (vector : String) (index size : Nat)
deriving DecidableEq, Repr

/-- Read `v[i]` of the vector called `name`. -/
def vget {α : Type} (name : String) (v : List α) (i : Nat) : Except Fault α :=
  match v[i]? with
  | some x => .ok x
  | none => .error (.subscript_out_of_bounds name i v.length)

/-- Store `v[i] = x` in the vector called `name`. -/
def vset {α : Type} (name : String) (v : List α) (i : Nat) (x : α) :
    Except Fault (List α) :=
  if i < v.length then .ok (v.set i x)
  else .error (.subscript_out_of_bounds name i v.length)

/-- A `for` loop with `k` iterations left and the index at `i`: the body runs
at `i`, `i + 1`, ..., threading the loop state and stopping at the first
fault. `for (int i = 0; i < n; i++)` is `for_loop body 0 n`. -/
def for_loop {σ : Type} (body : Nat → σ → Except Fault σ) :
    Nat → Nat → σ → Except Fault σ
  | _, 0, s => .ok s
  | i, k + 1, s =>
    match body i s with
    | .ok s1 => for_loop body (i + 1) k s1
    | .error e => .error e

/-! ## Melting temperatures -/

/-- The scalar `oligotm` of `oligotm.h`:
`oligotm(s, dna_conc, salt_conc, divalent_conc, dntp_conc, tm_method,
salt_corrections)`. -/
abbrev OligoTm := String → Double → Double → Double → Double → Int → Int → Double

/-- The scalar `seqtm` of `oligotm.h`:
`seqtm(s, dna_conc, salt_conc, divalent_conc, dntp_conc, nn_max_len,
tm_method, salt_corrections)`. -/
abbrev SeqTm :=
  String → Double → Double → Double → Double → Int → Int → Int → Double

/-- `call_oligo_tm`: one `oligotm` per element, stored at the same index. -/
def call_oligo_tm (oligotm : OligoTm) (oligos : List String)
    (mv dv dntp dna : Double) (tp sc : Int) : Except Fault (List Double) :=
  let n := oligos.length
  let tm := List.replicate n Double.zero
  for_loop
    (fun i tm => do
      let s ← vget "oligos" oligos i
      vset "tm" tm i (oligotm s dna mv dv dntp tp sc))
    0 n tm

/-- `call_seq_tm`: one `seqtm` per element, stored at the same index. -/
def call_seq_tm (seqtm : SeqTm) (oligos : List String)
    (mv dv dntp dna : Double) (nn_max_len tp sc : Int) :
    Except Fault (List Double) :=
  let n := oligos.length
  let tm := List.replicate n Double.zero
  for_loop
    (fun i tm => do
      let s ← vget "oligos" oligos i
      vset "tm" tm i (seqtm s dna mv dv dntp nn_max_len tp sc))
    0 n tm

/-! ## Thermodynamic alignment -/

/-- The `thal_args` of `thal.h`, in the order of the aggregate initialiser of
`call_thal`. `type` holds the `thal_alignment_type` as its integer code. -/
structure thal_args where
  debug : Int
  type : Int
  maxLoop : Int
  mv : Double
  dv : Double
  dntp : Double
  dna_conc : Double
  temp : Double
  temp_only : Int
  dimer : Int
deriving DecidableEq, Repr

/-- The `thal_results` of `thal.h`: the fields the wrappers read. -/
structure thal_results where
  msg : String
  no_structure : Int
  temp : Double
  ds : Double
  dh : Double
  dg : Double
  align_end_1 : Int
  align_end_2 : Int
deriving DecidableEq, Repr

/-- What one call stores through its `thal_results *` argument: for each
field, the value stored last, or `none` when the call leaves the field as it
found it. -/
structure thal_writes where
  msg : Option String
  no_structure : Option Int
  temp : Option Double
  ds : Option Double
  dh : Option Double
  dg : Option Double
  align_end_1 : Option Int
  align_end_2 : Option Int
deriving DecidableEq, Repr

/-- The struct after a call: stored fields replaced, the others kept. -/
def thal_writes.store (w : thal_writes) (o : thal_results) : thal_results where
  msg := w.msg.getD o.msg
  no_structure := w.no_structure.getD o.no_structure
  temp := w.temp.getD o.temp
  ds := w.ds.getD o.ds
  dh := w.dh.getD o.dh
  dg := w.dg.getD o.dg
  align_end_1 := w.align_end_1.getD o.align_end_1
  align_end_2 := w.align_end_2.getD o.align_end_2

/-- The process state the wrappers touch: the global `config_loaded` of
`thal.h` and the text written to `stderr`. -/
structure Process where
  config_loaded : Int
  stderr : List String
deriving DecidableEq, Repr

/-- The function `thal(oligo_f, oligo_r, a, o, print_output)` of `thal.h`: it
reads the process state (the parameter table), its arguments and the struct
`o` points to, and stores into that struct. What it prints is not modelled. -/
abbrev Thal :=
  Process → String → String → thal_args → thal_results → Int → thal_writes

/-- The loader `get_thermodynamic_values(path, o)` of `thal.h`: its return
value, what it stores into `*o`, and the process state it leaves. -/
abbrev Loader := String → thal_results → Process → Int × thal_writes × Process

/-- `is_thal_init`. -/
def is_thal_init (p : Process) : Int := p.config_loaded

/-- `call_thal_init`. `output0` is the indeterminate content of the
uninitialised local `output`. The result is the returned status and the
process state after the call. -/
def call_thal_init (get_thermodynamic_values : Loader) (config_path : List String)
    (output0 : thal_results) (p : Process) : Except Fault (Int × Process) := do
  let path ← vget "config_path" config_path 0
  let (error, w, p1) := get_thermodynamic_values path output0 p
  let output := w.store output0
  if error ≠ 0 then
    pure (error, { p1 with stderr := p1.stderr ++ [output.msg ++ "\n"] })
  else
    pure (error, p1)

/-- One call of `thal`, as the loop of `call_thal` makes it. -/
structure thal_call where
  oligo_f : String
  oligo_r : String
  a : thal_args
  o : thal_results
  print_output : Int
deriving DecidableEq, Repr

/-- The `List` that `call_thal` returns: seven named vectors. -/
structure thal_list where
  structure_found : List Bool
  temp : List Double
  ds : List Double
  dh : List Double
  dg : List Double
  align_end_1 : List Int
  align_end_2 : List Int
deriving DecidableEq, Repr

/-- The locals of `call_thal` that live across iterations: the struct
`results`, the seven output vectors, and (for the statements below) the
record of the calls of `thal` made so far. -/
structure thal_locals where
  results : thal_results
  out : thal_list
  calls : List thal_call
deriving DecidableEq, Repr

/-- Lines 105-108: the four numeric fields are set to `NULL_REAL` before each
call; `no_structure`, the alignment ends and `msg` are left as they are. -/
def reset_results (r : thal_results) : thal_results :=
  { r with temp := NULL_REAL, ds := NULL_REAL, dh := NULL_REAL, dg := NULL_REAL }

/-- Lines 111-114: `x != NULL_REAL ? x : NA_REAL`. -/
def na_if_null (x : Double) : Double :=
  if x.ne NULL_REAL then x else NA_REAL

/-- The body of the loop of `call_thal` (lines 105-116) at index `i`. -/
def call_thal_body (thal : Thal) (p : Process) (oligo1 oligo2 : List String)
    (targs : thal_args) (print_output : Int) (i : Nat) (s : thal_locals) :
    Except Fault thal_locals := do
  let o := reset_results s.results
  let f ← vget "oligo1" oligo1 i
  let r ← vget "oligo2" oligo2 i
  let results := (thal p f r targs o print_output).store o
  let structure_found ← vset "structure_found" s.out.structure_found i
    (results.no_structure != 1)
  let temps ← vset "temps" s.out.temp i (na_if_null results.temp)
  let ds ← vset "ds" s.out.ds i (na_if_null results.ds)
  let dh ← vset "dh" s.out.dh i (na_if_null results.dh)
  let dg ← vset "dg" s.out.dg i (na_if_null results.dg)
  let align_end_1 ← vset "align_end_1" s.out.align_end_1 i results.align_end_1
  let align_end_2 ← vset "align_end_2" s.out.align_end_2 i results.align_end_2
  pure
    { results := results
      out := ⟨structure_found, temps, ds, dh, dg, align_end_1, align_end_2⟩
      calls := s.calls ++ [⟨f, r, targs, o, print_output⟩] }

/-- `call_thal`. `results0` is the indeterminate content of the uninitialised
local `results`. The result is the returned list together with the calls of
`thal` that were made, in order. -/
def call_thal (thal : Thal) (p : Process) (results0 : thal_results)
    (oligo1 oligo2 : List String) (debug alignment_type maxloop : Int)
    (mv dv dntp dna temp : Double) (temp_only dimer print_output : Int) :
    Except Fault (thal_list × List thal_call) := do
  let targs : thal_args :=
    ⟨debug, alignment_type, maxloop, mv, dv, dntp, dna, temp, temp_only, dimer⟩
  let n := oligo1.length
  let out : thal_list :=
    ⟨List.replicate n false, List.replicate n Double.zero,
      List.replicate n Double.zero, List.replicate n Double.zero,
      List.replicate n Double.zero, List.replicate n 0, List.replicate n 0⟩
  let s ← for_loop (call_thal_body thal p oligo1 oligo2 targs print_output) 0 n
    ⟨results0, out, []⟩
  pure (s.out, s.calls)

/-! ## Auxiliary definitions for the statements -/

/-- The state of a vector that a loop fills front to back: it keeps its
length `n`, and its first `i` cells hold the first `i` values of `f`. -/
def filled {α : Type} (f : Nat → α) (n i : Nat) (v : List α) : Prop :=
  v.length = n ∧ ∀ j, j < i → v[j]? = some (f j)

/-- The struct `results` after one iteration on the pair `(f, r)`, entered
with the struct `prev`. -/
def thal_item (thal : Thal) (p : Process) (targs : thal_args) (print_output : Int)
    (prev : thal_results) (f r : String) : thal_results :=
  (thal p f r targs (reset_results prev) print_output).store (reset_results prev)

/-- The struct `results` after the first `i` iterations of the loop. -/
def results_after (thal : Thal) (p : Process) (targs : thal_args)
    (print_output : Int) (results0 : thal_results) (oligo1 oligo2 : List String) :
    Nat → thal_results
  | 0 => results0
  | i + 1 =>
    thal_item thal p targs print_output
      (results_after thal p targs print_output results0 oligo1 oligo2 i)
      (oligo1.getD i "") (oligo2.getD i "")

/-- One row of the returned list. -/
structure thal_row where
  structure_found : Bool
  temp : Double
  ds : Double
  dh : Double
  dg : Double
  align_end_1 : Int
  align_end_2 : Int
deriving DecidableEq, Repr

/-- Row `i` of a returned list: the `i`-th cell of each of the seven vectors,
when all seven have one. -/
def thal_list.row (l : thal_list) (i : Nat) : Option thal_row := do
  let structure_found ← l.structure_found[i]?
  let temp ← l.temp[i]?
  let ds ← l.ds[i]?
  let dh ← l.dh[i]?
  let dg ← l.dg[i]?
  let align_end_1 ← l.align_end_1[i]?
  let align_end_2 ← l.align_end_2[i]?
  pure ⟨structure_found, temp, ds, dh, dg, align_end_1, align_end_2⟩

/-- Lines 110-116: the row the loop stores from the struct `results`. -/
def to_row (r : thal_results) : thal_row :=
  ⟨r.no_structure != 1, na_if_null r.temp, na_if_null r.ds, na_if_null r.dh,
    na_if_null r.dg, r.align_end_1, r.align_end_2⟩

/-- The seven vectors holding the given rows, in order. -/
def of_rows (rows : List thal_row) : thal_list :=
  ⟨rows.map (fun x => x.structure_found), rows.map (fun x => x.temp),
    rows.map (fun x => x.ds), rows.map (fun x => x.dh), rows.map (fun x => x.dg),
    rows.map (fun x => x.align_end_1), rows.map (fun x => x.align_end_2)⟩

/-- The `i`-th call of `thal` in a batch: the `i`-th pair, the shared
arguments, and the struct left by the previous iteration with its four
numeric fields reset. -/
def call_at (thal : Thal) (p : Process) (targs : thal_args) (print_output : Int)
    (results0 : thal_results) (oligo1 oligo2 : List String) (i : Nat) : thal_call :=
  ⟨oligo1.getD i "", oligo2.getD i "", targs,
    reset_results (results_after thal p targs print_output results0 oligo1 oligo2 i),
    print_output⟩

/-- The row of item `i` in a batch. -/
def row_at (thal : Thal) (p : Process) (targs : thal_args) (print_output : Int)
    (results0 : thal_results) (oligo1 oligo2 : List String) (i : Nat) : thal_row :=
  to_row (results_after thal p targs print_output results0 oligo1 oligo2 (i + 1))

/-- The invariant of the loop of `call_thal` after `i` iterations. -/
def thal_inv (thal : Thal) (p : Process) (targs : thal_args) (print_output : Int)
    (results0 : thal_results) (oligo1 oligo2 : List String) (i : Nat)
    (s : thal_locals) : Prop :=
  s.results = results_after thal p targs print_output results0 oligo1 oligo2 i ∧
  s.calls = (List.range i).map
    (call_at thal p targs print_output results0 oligo1 oligo2) ∧
  filled (fun j => (row_at thal p targs print_output results0 oligo1 oligo2 j).structure_found)
    oligo1.length i s.out.structure_found ∧
  filled (fun j => (row_at thal p targs print_output results0 oligo1 oligo2 j).temp)
    oligo1.length i s.out.temp ∧
  filled (fun j => (row_at thal p targs print_output results0 oligo1 oligo2 j).ds)
    oligo1.length i s.out.ds ∧
  filled (fun j => (row_at thal p targs print_output results0 oligo1 oligo2 j).dh)
    oligo1.length i s.out.dh ∧
  filled (fun j => (row_at thal p targs print_output results0 oligo1 oligo2 j).dg)
    oligo1.length i s.out.dg ∧
  filled (fun j => (row_at thal p targs print_output results0 oligo1 oligo2 j).align_end_1)
    oligo1.length i s.out.align_end_1 ∧
  filled (fun j => (row_at thal p targs print_output results0 oligo1 oligo2 j).align_end_2)
    oligo1.length i s.out.align_end_2

/-- The four numeric fields of a result. -/
inductive numeric_field where
  | temp
  | ds
  | dh
  | dg
deriving DecidableEq, Repr

/-- What a call of `thal` stored into a numeric field. -/
def thal_writes.field (w : thal_writes) : numeric_field → Option Double
  | .temp => w.temp
  | .ds => w.ds
  | .dh => w.dh
  | .dg => w.dg

/-- A numeric field of a row. -/
def thal_row.field (r : thal_row) : numeric_field → Double
  | .temp => r.temp
  | .ds => r.ds
  | .dh => r.dh
  | .dg => r.dg

/-- The returned vector of a numeric field. -/
def thal_list.column (l : thal_list) : numeric_field → List Double
  | .temp => l.temp
  | .ds => l.ds
  | .dh => l.dh
  | .dg => l.dg

/-- What `call_thal` reports for a numeric field, from what `thal` stored into
it: `NA_REAL` when nothing was stored, `NA_REAL` when the value stored is the
number `NULL_REAL`, and the stored value otherwise. -/
def reported (w : Option Double) : Double :=
  match w with
  | none => NA_REAL
  | some v => if v = NULL_REAL then NA_REAL else v

/-- The double `37.0`. -/
def dbl_37 : Double := ⟨0x4042800000000000⟩

/-- The double `50.0`. -/
def dbl_50 : Double := ⟨0x4049000000000000⟩

/-- The double `-100.0`. -/
def dbl_m100 : Double := ⟨0xC059000000000000⟩

/-- The double `-30000.0`. -/
def dbl_m30000 : Double := ⟨0xC0DD4C0000000000⟩

/-- The double `-1000.0`. -/
def dbl_m1000 : Double := ⟨0xC08F400000000000⟩

/-- A process in which no parameter table is loaded. -/
def unloaded : Process := ⟨0, []⟩

/-- A process in which the parameter table is loaded. -/
def loaded : Process := ⟨1, []⟩

/-- One possible content of an uninitialised `thal_results`: all zero. -/
def results_zero : thal_results := ⟨"", 0, Double.zero, Double.zero, Double.zero,
  Double.zero, 0, 0⟩

/-- A `thal` that finds a structure for every pair and stores every field:
Tm 37.0, dS -100.0, dH -30000.0, dG -1000.0, both alignment ends 4. -/
def thal_full : Thal := fun _ _ _ _ _ _ =>
  ⟨some "", some 0, some dbl_37, some dbl_m100, some dbl_m30000, some dbl_m1000,
    some 4, some 4⟩

/-- A `thal` that finds a structure whose melting temperature is the number
123456789.123456789 and stores every field. -/
def thal_sentinel_tm : Thal := fun _ _ _ _ _ _ =>
  ⟨some "", some 0, some NULL_REAL, some dbl_m100, some dbl_m30000, some dbl_m1000,
    some 4, some 4⟩

/-- A `thal` that stores the flag, the melting temperature and the alignment
ends, and leaves `ds`, `dh`, `dg` as it found them. -/
def thal_temp_only : Thal := fun _ _ _ _ _ _ =>
  ⟨some "", some 0, some dbl_37, none, none, none, some 4, some 4⟩

/-- A `thal` that returns on an empty sequence after storing only a message,
and otherwise stores every field as `thal_full` does. -/
def thal_skip_empty : Thal := fun p f r a o print_output =>
  if f = "" ∨ r = "" then
    ⟨some "empty sequence", none, none, none, none, none, none, none⟩
  else thal_full p f r a o print_output

/-- A loader that fails on every path with status 1 and a message, leaving
the table unloaded. -/
def loader_missing : Loader := fun path _ p =>
  (1, ⟨some ("cannot open " ++ path), none, none, none, none, none, none, none⟩, p)

/-! ## Loop and vector lemmas -/

theorem for_loop_invariant {σ : Type} (body : Nat → σ → Except Fault σ)
    (P : Nat → σ → Prop) (n : Nat)
    (hstep : ∀ i s, i < n → P i s → ∃ s1, body i s = .ok s1 ∧ P (i + 1) s1) :
    ∀ k i s, i + k = n → P i s → ∃ s1, for_loop body i k s = .ok s1 ∧ P n s1 := by
  intro k
  induction k with
  | zero =>
    intro i s hik hP
    have hi : i = n := by omega
    subst hi
    exact ⟨s, rfl, hP⟩
  | succ k ih =>
    intro i s hik hP
    obtain ⟨s1, hb, hP1⟩ := hstep i s (by omega) hP
    obtain ⟨s2, hl, hP2⟩ := ih (i + 1) s1 (by omega) hP1
    exact ⟨s2, by simp [for_loop, hb, hl], hP2⟩

theorem vget_of_lt {α : Type} (name : String) (v : List α) (i : Nat)
    (h : i < v.length) : vget name v i = .ok (v.get ⟨i, h⟩) := by
  simp [vget, List.getElem?_eq_getElem h]

theorem vget_of_getElem? {α : Type} (name : String) (v : List α) (i : Nat) (x : α)
    (h : v[i]? = some x) : vget name v i = .ok x := by
  simp [vget, h]

theorem vget_of_le {α : Type} (name : String) (v : List α) (i : Nat)
    (h : v.length ≤ i) :
    vget name v i = .error (.subscript_out_of_bounds name i v.length) := by
  simp [vget, List.getElem?_eq_none h]

theorem vset_of_lt {α : Type} (name : String) (v : List α) (i : Nat) (x : α)
    (h : i < v.length) : vset name v i x = .ok (v.set i x) := by
  simp [vset, h]

theorem filled_zero {α : Type} (f : Nat → α) (n : Nat) (d : α) :
    filled f n 0 (List.replicate n d) := by
  constructor
  · simp
  · intro j hj
    omega

theorem filled_set {α : Type} (f : Nat → α) (n i : Nat) (v : List α)
    (h : filled f n i v) (hi : i < n) : filled f n (i + 1) (v.set i (f i)) := by
  obtain ⟨hlen, hpre⟩ := h
  constructor
  · simpa using hlen
  · intro j hj
    by_cases hji : j = i
    · subst hji
      simp [List.getElem?_set_self (by omega : j < v.length)]
    · rw [List.getElem?_set_ne (by omega)]
      exact hpre j (by omega)

theorem filled_full_eq {α : Type} (f : Nat → α) (n : Nat) (v : List α)
    (h : filled f n n v) : v = (List.range n).map f := by
  obtain ⟨hlen, hpre⟩ := h
  apply List.ext_getElem?
  intro j
  by_cases hj : j < n
  · rw [hpre j hj]
    simp [List.getElem?_map, List.getElem?_range hj]
  · rw [List.getElem?_eq_none (by omega), List.getElem?_eq_none (by simp; omega)]

theorem ok_bind {α β : Type} (x : α) (f : α → Except Fault β) :
    (Except.ok x >>= f) = f x := rfl

theorem range_map_getD {α β : Type} (src : List α) (g : α → β) (a0 : α) :
    (List.range src.length).map (fun j => g (src.getD j a0)) = src.map g := by
  apply List.ext_getElem?
  intro j
  by_cases hj : j < src.length
  · simp [List.getElem?_map, List.getElem?_range hj, List.getElem?_eq_getElem hj,
      List.getD_eq_getElem?_getD]
  · rw [List.getElem?_eq_none (by simp; omega), List.getElem?_eq_none (by simp; omega)]

/-- A loop that reads `src[i]` and stores `g src[i]` at `dst[i]` for every
index of `src` computes `src.map g`. -/
theorem map_loop {α β : Type} (nsrc ndst : String) (src : List α) (g : α → β)
    (d : β) :
    for_loop (fun i dst => do
        let s ← vget nsrc src i
        vset ndst dst i (g s))
      0 src.length (List.replicate src.length d) = .ok (src.map g) := by
  cases hsrc : src with
  | nil => rfl
  | cons a0 tl =>
    rw [← hsrc]
    obtain ⟨v, hv, hP⟩ := for_loop_invariant
      (fun i dst => do
          let s ← vget nsrc src i
          vset ndst dst i (g s))
      (fun i v => filled (fun j => g (src.getD j a0)) src.length i v)
      src.length
      (by
        intro i v hi hP
        refine ⟨v.set i (g (src.getD i a0)), ?_, filled_set _ _ _ _ hP hi⟩
        have hget : vget nsrc src i = .ok (src.getD i a0) := by
          apply vget_of_getElem?
          simp [List.getD_eq_getElem?_getD, List.getElem?_eq_getElem hi]
        simp only [hget, ok_bind]
        exact vset_of_lt _ _ _ _ (by rw [hP.1]; exact hi))
      src.length 0 (List.replicate src.length d) (by simp) (filled_zero _ _ _)
    rw [hv, filled_full_eq _ _ _ hP, range_map_getD]

theorem getD_of_lt (l : List String) (i : Nat) (h : i < l.length) :
    l[i]? = some (l.getD i "") := by
  simp [List.getD_eq_getElem?_getD, List.getElem?_eq_getElem h]

/-- The loop invariant of `call_thal` after `i` iterations. -/
theorem call_thal_step (thal : Thal) (p : Process) (results0 : thal_results)
    (oligo1 oligo2 : List String) (targs : thal_args) (print_output : Int)
    (i : Nat) (s : thal_locals)
    (hi : i < oligo1.length) (hi2 : i < oligo2.length)
    (hres : s.results = results_after thal p targs print_output results0 oligo1 oligo2 i)
    (hcalls : s.calls = (List.range i).map
      (call_at thal p targs print_output results0 oligo1 oligo2))
    (h1 : filled (fun j => (row_at thal p targs print_output results0 oligo1 oligo2 j).structure_found)
      oligo1.length i s.out.structure_found)
    (h2 : filled (fun j => (row_at thal p targs print_output results0 oligo1 oligo2 j).temp)
      oligo1.length i s.out.temp)
    (h3 : filled (fun j => (row_at thal p targs print_output results0 oligo1 oligo2 j).ds)
      oligo1.length i s.out.ds)
    (h4 : filled (fun j => (row_at thal p targs print_output results0 oligo1 oligo2 j).dh)
      oligo1.length i s.out.dh)
    (h5 : filled (fun j => (row_at thal p targs print_output results0 oligo1 oligo2 j).dg)
      oligo1.length i s.out.dg)
    (h6 : filled (fun j => (row_at thal p targs print_output results0 oligo1 oligo2 j).align_end_1)
      oligo1.length i s.out.align_end_1)
    (h7 : filled (fun j => (row_at thal p targs print_output results0 oligo1 oligo2 j).align_end_2)
      oligo1.length i s.out.align_end_2) :
    call_thal_body thal p oligo1 oligo2 targs print_output i s = .ok
      { results := results_after thal p targs print_output results0 oligo1 oligo2 (i + 1)
        out :=
          ⟨s.out.structure_found.set i
              (row_at thal p targs print_output results0 oligo1 oligo2 i).structure_found,
            s.out.temp.set i (row_at thal p targs print_output results0 oligo1 oligo2 i).temp,
            s.out.ds.set i (row_at thal p targs print_output results0 oligo1 oligo2 i).ds,
            s.out.dh.set i (row_at thal p targs print_output results0 oligo1 oligo2 i).dh,
            s.out.dg.set i (row_at thal p targs print_output results0 oligo1 oligo2 i).dg,
            s.out.align_end_1.set i
              (row_at thal p targs print_output results0 oligo1 oligo2 i).align_end_1,
            s.out.align_end_2.set i
              (row_at thal p targs print_output results0 oligo1 oligo2 i).align_end_2⟩
        calls := (List.range (i + 1)).map
          (call_at thal p targs print_output results0 oligo1 oligo2) } := by
  unfold call_thal_body
  rw [vget_of_getElem? _ _ _ _ (getD_of_lt oligo1 i hi),
    vget_of_getElem? _ _ _ _ (getD_of_lt oligo2 i hi2)]
  simp only [ok_bind]
  rw [vset_of_lt _ _ _ _ (by rw [h1.1]; exact hi),
    vset_of_lt _ _ _ _ (by rw [h2.1]; exact hi),
    vset_of_lt _ _ _ _ (by rw [h3.1]; exact hi),
    vset_of_lt _ _ _ _ (by rw [h4.1]; exact hi),
    vset_of_lt _ _ _ _ (by rw [h5.1]; exact hi),
    vset_of_lt _ _ _ _ (by rw [h6.1]; exact hi),
    vset_of_lt _ _ _ _ (by rw [h7.1]; exact hi)]
  simp only [ok_bind, hres, hcalls, List.range_succ, List.map_append, List.map_cons,
    List.map_nil]
  rfl

/-- With `oligo2` at least as long as `oligo1`, `call_thal` returns the rows
of the items in order, having called `thal` once per item. -/
theorem call_thal_eq (thal : Thal) (p : Process) (results0 : thal_results)
    (oligo1 oligo2 : List String) (debug alignment_type maxloop : Int)
    (mv dv dntp dna temp : Double) (temp_only dimer print_output : Int)
    (hlen : oligo1.length ≤ oligo2.length) :
    call_thal thal p results0 oligo1 oligo2 debug alignment_type maxloop mv dv dntp
        dna temp temp_only dimer print_output =
      .ok
        (of_rows ((List.range oligo1.length).map
            (row_at thal p
              ⟨debug, alignment_type, maxloop, mv, dv, dntp, dna, temp, temp_only, dimer⟩
              print_output results0 oligo1 oligo2)),
          (List.range oligo1.length).map
            (call_at thal p
              ⟨debug, alignment_type, maxloop, mv, dv, dntp, dna, temp, temp_only, dimer⟩
              print_output results0 oligo1 oligo2)) := by
  obtain ⟨s, hs, hres, hcalls, h1, h2, h3, h4, h5, h6, h7⟩ := for_loop_invariant
    (call_thal_body thal p oligo1 oligo2
      ⟨debug, alignment_type, maxloop, mv, dv, dntp, dna, temp, temp_only, dimer⟩
      print_output)
    (thal_inv thal p
      ⟨debug, alignment_type, maxloop, mv, dv, dntp, dna, temp, temp_only, dimer⟩
      print_output results0 oligo1 oligo2)
    oligo1.length
    (by
      intro i s hi hP
      obtain ⟨hres, hcalls, h1, h2, h3, h4, h5, h6, h7⟩ := hP
      refine ⟨_, call_thal_step thal p results0 oligo1 oligo2 _ print_output i s hi
        (by omega) hres hcalls h1 h2 h3 h4 h5 h6 h7, rfl, rfl, ?_, ?_, ?_, ?_, ?_, ?_, ?_⟩
      · exact filled_set _ _ _ _ h1 hi
      · exact filled_set _ _ _ _ h2 hi
      · exact filled_set _ _ _ _ h3 hi
      · exact filled_set _ _ _ _ h4 hi
      · exact filled_set _ _ _ _ h5 hi
      · exact filled_set _ _ _ _ h6 hi
      · exact filled_set _ _ _ _ h7 hi)
    oligo1.length 0
    ⟨results0,
      ⟨List.replicate oligo1.length false, List.replicate oligo1.length Double.zero,
        List.replicate oligo1.length Double.zero, List.replicate oligo1.length Double.zero,
        List.replicate oligo1.length Double.zero, List.replicate oligo1.length 0,
        List.replicate oligo1.length 0⟩, []⟩
    (by simp)
    ⟨rfl, rfl, filled_zero _ _ _, filled_zero _ _ _, filled_zero _ _ _,
      filled_zero _ _ _, filled_zero _ _ _, filled_zero _ _ _, filled_zero _ _ _⟩
  unfold call_thal
  simp only [hs, ok_bind]
  have e1 := filled_full_eq _ _ _ h1
  have e2 := filled_full_eq _ _ _ h2
  have e3 := filled_full_eq _ _ _ h3
  have e4 := filled_full_eq _ _ _ h4
  have e5 := filled_full_eq _ _ _ h5
  have e6 := filled_full_eq _ _ _ h6
  have e7 := filled_full_eq _ _ _ h7
  have hout : s.out = of_rows ((List.range oligo1.length).map
      (row_at thal p
        ⟨debug, alignment_type, maxloop, mv, dv, dntp, dna, temp, temp_only, dimer⟩
        print_output results0 oligo1 oligo2)) := by
    cases hso : s.out with
    | mk a b c d e f g =>
      rw [hso] at e1 e2 e3 e4 e5 e6 e7
      simp only at e1 e2 e3 e4 e5 e6 e7
      simp only [of_rows, List.map_map, e1, e2, e3, e4, e5, e6, e7]
      rfl
  rw [hout, hcalls]
  rfl

theorem error_bind {α β : Type} (e : Fault) (f : α → Except Fault β) :
    ((Except.error e : Except Fault α) >>= f) = Except.error e := rfl

theorem for_loop_fault {σ : Type} (body : Nat → σ → Except Fault σ)
    (P : Nat → σ → Prop) (m : Nat) (e : Fault)
    (hstep : ∀ i s, i < m → P i s → ∃ s1, body i s = .ok s1 ∧ P (i + 1) s1)
    (hfault : ∀ s, P m s → body m s = .error e) :
    ∀ k i s, i ≤ m → m < i + k → P i s → for_loop body i k s = .error e := by
  intro k
  induction k with
  | zero =>
    intro i s him hmk hP
    omega
  | succ k ih =>
    intro i s him hmk hP
    by_cases hi : i = m
    · subst hi
      simp [for_loop, hfault s hP]
    · obtain ⟨s1, hb, hP1⟩ := hstep i s (by omega) hP
      simp only [for_loop, hb]
      exact ih (i + 1) s1 (by omega) (by omega) hP1

/-- With `oligo2` shorter than `oligo1`, the loop of `call_thal` subscripts
`oligo2` one past its end. -/
theorem call_thal_fault (thal : Thal) (p : Process) (results0 : thal_results)
    (oligo1 oligo2 : List String) (debug alignment_type maxloop : Int)
    (mv dv dntp dna temp : Double) (temp_only dimer print_output : Int)
    (hlen : oligo2.length < oligo1.length) :
    call_thal thal p results0 oligo1 oligo2 debug alignment_type maxloop mv dv dntp
        dna temp temp_only dimer print_output =
      .error (.subscript_out_of_bounds "oligo2" oligo2.length oligo2.length) := by
  have h := for_loop_fault
    (call_thal_body thal p oligo1 oligo2
      ⟨debug, alignment_type, maxloop, mv, dv, dntp, dna, temp, temp_only, dimer⟩
      print_output)
    (thal_inv thal p
      ⟨debug, alignment_type, maxloop, mv, dv, dntp, dna, temp, temp_only, dimer⟩
      print_output results0 oligo1 oligo2)
    oligo2.length (.subscript_out_of_bounds "oligo2" oligo2.length oligo2.length)
    (by
      intro i s hi hP
      obtain ⟨hres, hcalls, h1, h2, h3, h4, h5, h6, h7⟩ := hP
      refine ⟨_, call_thal_step thal p results0 oligo1 oligo2 _ print_output i s
        (by omega) hi hres hcalls h1 h2 h3 h4 h5 h6 h7, rfl, rfl, ?_, ?_, ?_, ?_, ?_, ?_, ?_⟩
      · exact filled_set _ _ _ _ h1 (by omega)
      · exact filled_set _ _ _ _ h2 (by omega)
      · exact filled_set _ _ _ _ h3 (by omega)
      · exact filled_set _ _ _ _ h4 (by omega)
      · exact filled_set _ _ _ _ h5 (by omega)
      · exact filled_set _ _ _ _ h6 (by omega)
      · exact filled_set _ _ _ _ h7 (by omega))
    (by
      intro s _
      unfold call_thal_body
      rw [vget_of_getElem? _ _ _ _ (getD_of_lt oligo1 oligo2.length hlen),
        vget_of_le _ _ _ (le_refl _)]
      rfl)
    oligo1.length 0
    ⟨results0,
      ⟨List.replicate oligo1.length false, List.replicate oligo1.length Double.zero,
        List.replicate oligo1.length Double.zero, List.replicate oligo1.length Double.zero,
        List.replicate oligo1.length Double.zero, List.replicate oligo1.length 0,
        List.replicate oligo1.length 0⟩, []⟩
    (by omega) (by omega)
    ⟨rfl, rfl, filled_zero _ _ _, filled_zero _ _ _, filled_zero _ _ _,
      filled_zero _ _ _, filled_zero _ _ _, filled_zero _ _ _, filled_zero _ _ _⟩
  unfold call_thal
  simp only [h]
  rfl

theorem row_of_rows (rows : List thal_row) (i : Nat) (x : thal_row)
    (h : rows[i]? = some x) : (of_rows rows).row i = some x := by
  simp [of_rows, thal_list.row, List.getElem?_map, h]

theorem getElem?_range_map {α : Type} (f : Nat → α) (n i : Nat) (h : i < n) :
    ((List.range n).map f)[i]? = some (f i) := by
  simp [List.getElem?_map, List.getElem?_range h]

/-- What `call_thal` returns for item `i` of a batch in which `oligo2` is at
least as long as `oligo1`. -/
theorem call_thal_item (thal : Thal) (p : Process) (results0 : thal_results)
    (oligo1 oligo2 : List String) (debug alignment_type maxloop : Int)
    (mv dv dntp dna temp : Double) (temp_only dimer print_output : Int)
    (hlen : oligo1.length ≤ oligo2.length) (i : Nat) (hi : i < oligo1.length) :
    ∃ l calls, call_thal thal p results0 oligo1 oligo2 debug alignment_type maxloop mv dv dntp
        dna temp temp_only dimer print_output = .ok (l, calls) ∧
      calls.length = oligo1.length ∧
      calls[i]? = some (call_at thal p ⟨debug, alignment_type, maxloop, mv, dv, dntp, dna, temp, temp_only, dimer⟩ print_output results0 oligo1 oligo2 i) ∧
      l.row i = some (row_at thal p ⟨debug, alignment_type, maxloop, mv, dv, dntp, dna, temp, temp_only, dimer⟩ print_output results0 oligo1 oligo2 i) := by
  refine ⟨_, _, call_thal_eq thal p results0 oligo1 oligo2 debug alignment_type maxloop
    mv dv dntp dna temp temp_only dimer print_output hlen, by simp, ?_, ?_⟩
  · exact getElem?_range_map _ _ _ hi
  · exact row_of_rows _ _ _ (getElem?_range_map _ _ _ hi)

/-- The row stored for item `i` is the conversion of the struct left by the
`i`-th call of `thal`. -/
theorem row_at_eq (thal : Thal) (p : Process) (targs : thal_args) (print_output : Int)
    (results0 : thal_results) (oligo1 oligo2 : List String) (i : Nat) :
    row_at thal p targs print_output results0 oligo1 oligo2 i =
      to_row ((thal p
        (call_at thal p targs print_output results0 oligo1 oligo2 i).oligo_f
        (call_at thal p targs print_output results0 oligo1 oligo2 i).oligo_r
        (call_at thal p targs print_output results0 oligo1 oligo2 i).a
        (call_at thal p targs print_output results0 oligo1 oligo2 i).o
        (call_at thal p targs print_output results0 oligo1 oligo2 i).print_output).store
        (call_at thal p targs print_output results0 oligo1 oligo2 i).o) := rfl

theorem na_if_null_eq (x : Double) :
    na_if_null x = if x = NULL_REAL then NA_REAL else x := by
  by_cases h : x = NULL_REAL
  · subst h
    simp only [if_true]
    decide
  · have hb : x.bits ≠ NULL_REAL.bits := by
      intro hb
      apply h
      cases x
      simp only [NULL_REAL] at hb ⊢
      simp_all
    simp only [if_neg h, na_if_null, Double.ne]
    have : (x.bits == NULL_REAL.bits) = false := by simpa using hb
    have hz : NULL_REAL.isZero = false := by decide
    simp [this, hz]

theorem na_if_null_getD (w : Option Double) :
    na_if_null (w.getD NULL_REAL) = reported w := by
  cases w with
  | none => simp [na_if_null_eq, reported]
  | some v => simp [na_if_null_eq, reported]

/-- A numeric field of the row stored after a call is what `reported` gives
for what the call stored into that field. -/
theorem to_row_field (w : thal_writes) (prev : thal_results) (fld : numeric_field) :
    (to_row (w.store (reset_results prev))).field fld = reported (w.field fld) := by
  cases fld <;>
    simp [to_row, thal_row.field, thal_writes.field, thal_writes.store, reset_results,
      na_if_null_getD]

theorem reported_missing (w : Option Double) (h : isNA (reported w) = true) :
    w = none ∨ w = some NULL_REAL ∨ w = some (reported w) := by
  cases w with
  | none => exact Or.inl rfl
  | some v =>
    by_cases hv : v = NULL_REAL
    · exact Or.inr (Or.inl (by rw [hv]))
    · exact Or.inr (Or.inr (by simp [reported, hv]))

theorem column_of_row (l : thal_list) (i : Nat) (r : thal_row) (fld : numeric_field)
    (h : l.row i = some r) : (l.column fld)[i]? = some (r.field fld) := by
  simp only [thal_list.row, Option.bind_eq_bind, Option.bind_eq_some, Option.pure_def,
    Option.some.injEq] at h
  obtain ⟨a, ha, b, hb, c, hc, d, hd, e, he, f, hf, g, hg, hr⟩ := h
  subst hr
  cases fld <;> simp [thal_list.column, thal_row.field, hb, hc, hd, he]

/-- The call record, the row and the numeric columns of item `i`. -/
theorem call_thal_item_fields (thal : Thal) (p : Process) (results0 : thal_results)
    (oligo1 oligo2 : List String) (debug alignment_type maxloop : Int)
    (mv dv dntp dna temp : Double) (temp_only dimer print_output : Int)
    (hlen : oligo1.length ≤ oligo2.length) (i : Nat) (hi : i < oligo1.length) :
    ∃ l calls c r, call_thal thal p results0 oligo1 oligo2 debug alignment_type maxloop mv dv dntp
        dna temp temp_only dimer print_output = .ok (l, calls) ∧
      calls[i]? = some c ∧ l.row i = some r ∧
      r = to_row ((thal p c.oligo_f c.oligo_r c.a c.o c.print_output).store c.o) ∧
      ∀ fld, r.field fld =
        reported ((thal p c.oligo_f c.oligo_r c.a c.o c.print_output).field fld) := by
  obtain ⟨l, calls, hok, _, hc, hr⟩ := call_thal_item thal p results0 oligo1 oligo2 debug
    alignment_type maxloop mv dv dntp dna temp temp_only dimer print_output hlen i hi
  refine ⟨l, calls, _, _, hok, hc, hr, row_at_eq _ _ _ _ _ _ _ _, ?_⟩
  intro fld
  rw [row_at_eq]
  exact to_row_field _ _ _

/-- Independence of the items: when `thal` does not read the struct it is
handed and stores `no_structure`, `align_end_1` and `align_end_2` on every
call, row `i` of a batch is the row of the one-element call on the same
pair. -/
theorem call_thal_item_independent (thal : Thal) (p : Process) (results0 : thal_results)
    (oligo1 oligo2 : List String) (debug alignment_type maxloop : Int)
    (mv dv dntp dna temp : Double) (temp_only dimer print_output : Int)
    (hpure : ∀ f r a o o2 po, thal p f r a o po = thal p f r a o2 po)
    (hstores : ∀ f r a o po, (thal p f r a o po).no_structure ≠ none ∧
      (thal p f r a o po).align_end_1 ≠ none ∧ (thal p f r a o po).align_end_2 ≠ none)
    (hlen : oligo1.length = oligo2.length) (i : Nat) (hi : i < oligo1.length) :
    ∃ l calls l1 calls1 r,
      call_thal thal p results0 oligo1 oligo2 debug alignment_type maxloop mv dv dntp
        dna temp temp_only dimer print_output = .ok (l, calls) ∧
      call_thal thal p results0 [oligo1.getD i ""] [oligo2.getD i ""] debug
        alignment_type maxloop mv dv dntp dna temp temp_only dimer print_output =
          .ok (l1, calls1) ∧
      l.row i = some r ∧ l1.row 0 = some r := by
  obtain ⟨l, calls, hok, _, _, hr⟩ := call_thal_item thal p results0 oligo1 oligo2 debug
    alignment_type maxloop mv dv dntp dna temp temp_only dimer print_output (by omega) i hi
  obtain ⟨l1, calls1, hok1, _, _, hr1⟩ := call_thal_item thal p results0
    [oligo1.getD i ""] [oligo2.getD i ""] debug alignment_type maxloop mv dv dntp dna temp
    temp_only dimer print_output (by simp) 0 (by simp)
  refine ⟨l, calls, l1, calls1, _, hok, hok1, hr, ?_⟩
  rw [hr1]
  congr 1
  simp only [row_at, results_after, thal_item, List.getD_cons_zero]
  generalize results_after thal p
    ⟨debug, alignment_type, maxloop, mv, dv, dntp, dna, temp, temp_only, dimer⟩
    print_output results0 oligo1 oligo2 i = prev
  rw [hpure _ _ _ (reset_results results0) (reset_results prev) _]
  have hst := hstores (oligo1.getD i "") (oligo2.getD i "")
    ⟨debug, alignment_type, maxloop, mv, dv, dntp, dna, temp, temp_only, dimer⟩
    (reset_results prev) print_output
  revert hst
  generalize thal p (oligo1.getD i "") (oligo2.getD i "")
    ⟨debug, alignment_type, maxloop, mv, dv, dntp, dna, temp, temp_only, dimer⟩
    (reset_results prev) print_output = w
  intro hst
  obtain ⟨h1, h2, h3⟩ := hst
  obtain ⟨a, ha⟩ := Option.ne_none_iff_exists.mp h1
  obtain ⟨b, hb⟩ := Option.ne_none_iff_exists.mp h2
  obtain ⟨c, hc⟩ := Option.ne_none_iff_exists.mp h3
  simp [to_row, thal_writes.store, reset_results, ← ha, ← hb, ← hc]

/-- The failure path of `call_thal_init` on a loader that cannot open its
source: status 1 is returned and the loader's message is written to `stderr`. -/
theorem call_thal_init_loader_missing :
    call_thal_init loader_missing ["thal_data/"] results_zero unloaded =
      .ok (1, ⟨0, ["cannot open thal_data/\n"]⟩) := by
  rfl

/-- On an empty `config_path` the subscript `config_path[0]` is out of range. -/
theorem call_thal_init_empty (get_thermodynamic_values : Loader)
    (output0 : thal_results) (p : Process) :
    call_thal_init get_thermodynamic_values [] output0 p =
      .error (.subscript_out_of_bounds "config_path" 0 0) := by
  rfl

/-! ## The claims -/

/-- C6: `call_oligo_tm` never faults and returns, for every list of oligos
and every `mv`, `dv`, `dntp`, `dna`, `tp`, `sc`, the list obtained by applying
`oligotm` with `(dna, mv, dv, dntp, tp, sc)` to each element in input order;
so it has exactly as many elements as `oligos`, and is empty for the empty
list. -/
theorem call_oligo_tm_eq_map (oligotm : OligoTm) (oligos : List String)
    (mv dv dntp dna : Double) (tp sc : Int) :
    call_oligo_tm oligotm oligos mv dv dntp dna tp sc =
        .ok (oligos.map (fun s => oligotm s dna mv dv dntp tp sc)) ∧
      (oligos.map (fun s => oligotm s dna mv dv dntp tp sc)).length = oligos.length ∧
      call_oligo_tm oligotm [] mv dv dntp dna tp sc = .ok [] := by
  refine ⟨?_, by simp, rfl⟩
  unfold call_oligo_tm
  exact map_loop "oligos" "tm" oligos (fun s => oligotm s dna mv dv dntp tp sc) Double.zero

/-- C7: `call_seq_tm` never faults and returns, for every list of oligos and
every `mv`, `dv`, `dntp`, `dna`, `nn_max_len`, `tp`, `sc`, the list obtained by
applying `seqtm` with `(dna, mv, dv, dntp, nn_max_len, tp, sc)` to each element
in input order; so it has exactly as many elements as `oligos`. -/
theorem call_seq_tm_eq_map (seqtm : SeqTm) (oligos : List String)
    (mv dv dntp dna : Double) (nn_max_len tp sc : Int) :
    call_seq_tm seqtm oligos mv dv dntp dna nn_max_len tp sc =
        .ok (oligos.map (fun s => seqtm s dna mv dv dntp nn_max_len tp sc)) ∧
      (oligos.map (fun s => seqtm s dna mv dv dntp nn_max_len tp sc)).length =
        oligos.length := by
  refine ⟨?_, by simp⟩
  unfold call_seq_tm
  exact map_loop "oligos" "tm" oligos
    (fun s => seqtm s dna mv dv dntp nn_max_len tp sc) Double.zero

/-- C9: for a non-empty `config_path`, `call_thal_init` returns the status the
loader produced for `config_path[0]`, unchanged; when that status is non-zero
it appends to `stderr` one line holding the message of the struct the loader
filled, and when it is zero it writes nothing. -/
theorem call_thal_init_status (get_thermodynamic_values : Loader) (path : String)
    (rest : List String) (output0 : thal_results) (p : Process) :
    call_thal_init get_thermodynamic_values (path :: rest) output0 p =
      .ok ((get_thermodynamic_values path output0 p).1,
        if (get_thermodynamic_values path output0 p).1 ≠ 0 then
          { (get_thermodynamic_values path output0 p).2.2 with
            stderr := (get_thermodynamic_values path output0 p).2.2.stderr ++
              [((get_thermodynamic_values path output0 p).2.1.store output0).msg ++ "\n"] }
        else (get_thermodynamic_values path output0 p).2.2) := by
  unfold call_thal_init
  rw [vget_of_getElem? "config_path" (path :: rest) 0 path (by simp)]
  simp only [ok_bind]
  split <;> rfl

/-- C10: whenever `oligo2` has at least as many elements as `oligo1`, no
subscript of the loop of `call_thal` (into `oligo1`, `oligo2` or any of the seven
output vectors) is out of range, and the loop calls `thal` exactly
`oligo1.size()` times; and there is a call with `oligo2` shorter than `oligo1`
in which the loop subscripts `oligo2` out of range. -/
theorem call_thal_subscripts :
    (∀ (thal : Thal) (p : Process) (results0 : thal_results)
        (oligo1 oligo2 : List String) (debug alignment_type maxloop : Int)
        (mv dv dntp dna temp : Double) (temp_only dimer print_output : Int),
      oligo1.length ≤ oligo2.length →
      ∃ l calls, call_thal thal p results0 oligo1 oligo2 debug alignment_type maxloop mv dv dntp
        dna temp temp_only dimer print_output = .ok (l, calls) ∧
        calls.length = oligo1.length) ∧
    (∃ (thal : Thal) (p : Process) (results0 : thal_results)
        (oligo1 oligo2 : List String) (debug alignment_type maxloop : Int)
        (mv dv dntp dna temp : Double) (temp_only dimer print_output : Int),
      oligo2.length < oligo1.length ∧
      call_thal thal p results0 oligo1 oligo2 debug alignment_type maxloop mv dv dntp
        dna temp temp_only dimer print_output =
        .error (.subscript_out_of_bounds "oligo2" oligo2.length oligo2.length)) := by
  constructor
  · intro thal p results0 oligo1 oligo2 debug alignment_type maxloop mv dv dntp dna temp
      temp_only dimer print_output hlen
    exact ⟨_, _, call_thal_eq thal p results0 oligo1 oligo2 debug alignment_type maxloop
      mv dv dntp dna temp temp_only dimer print_output hlen, by simp⟩
  · exact ⟨thal_full, loaded, results_zero, ["ACGT", "GGCC"], ["ACGT"], 0, 1, 30, dbl_50,
      Double.zero, Double.zero, dbl_50, dbl_37, 0, 1, 0, by decide,
      call_thal_fault thal_full loaded results_zero ["ACGT", "GGCC"] ["ACGT"] 0 1 30
        dbl_50 Double.zero Double.zero dbl_50 dbl_37 0 1 0 (by decide)⟩

/-- C10, at a batch whose `oligo2` is longer than `oligo1`. -/
theorem call_thal_subscripts_witness :
    ["ACGT"].length ≤ ["ACGT", "GGCC"].length ∧
    ∃ l calls, call_thal thal_full loaded results_zero ["ACGT"] ["ACGT", "GGCC"]
        0 1 30 dbl_50 Double.zero Double.zero dbl_50 dbl_37 0 1 0 = .ok (l, calls) ∧
      calls.length = ["ACGT"].length :=
  ⟨by decide, call_thal_subscripts.1 thal_full loaded results_zero ["ACGT"]
    ["ACGT", "GGCC"] 0 1 30 dbl_50 Double.zero Double.zero dbl_50 dbl_37 0 1 0
    (by decide)⟩

/-- C1 fails as stated: with a `thal` that stores the melting temperature
123456789.123456789 (the value of `NULL_REAL`), `call_thal` reports `temp` of
that item as NA although `thal` stored a value into it. -/
theorem call_thal_sentinel_missing :
    ∃ l calls c x, call_thal thal_sentinel_tm loaded results_zero ["ACGT"] ["ACGT"]
        0 1 30 dbl_50 Double.zero Double.zero
        dbl_50 dbl_37 0 1 0 = .ok (l, calls) ∧
      calls[0]? = some c ∧ (l.column .temp)[0]? = some x ∧ isNA x = true ∧
      (thal_sentinel_tm loaded c.oligo_f c.oligo_r c.a c.o c.print_output).field .temp =
        some NULL_REAL ∧
      (thal_sentinel_tm loaded c.oligo_f c.oligo_r c.a c.o c.print_output).field .temp ≠
        none :=
  ⟨_, _, _, _, rfl, rfl, rfl, by decide, rfl, by decide⟩

/-- C1, amended: for batches of equal length and every item `i`, each numeric
field (temp, ds, dh, dg) of row `i` is NA when `thal` stored nothing into it,
NA when `thal` stored the number `NULL_REAL`, and otherwise exactly the value
`thal` stored; so a field is reported as NA only when `thal` left it
untouched, stored the number `NULL_REAL`, or stored an NA itself. -/
theorem call_thal_reported (thal : Thal) (p : Process) (results0 : thal_results)
    (oligo1 oligo2 : List String) (debug alignment_type maxloop : Int)
    (mv dv dntp dna temp : Double) (temp_only dimer print_output : Int)
    (hlen : oligo1.length = oligo2.length) (i : Nat) (hi : i < oligo1.length) :
    ∃ l calls c, call_thal thal p results0 oligo1 oligo2 debug alignment_type maxloop mv dv dntp
        dna temp temp_only dimer print_output = .ok (l, calls) ∧
      calls[i]? = some c ∧
      ∀ fld, ∃ x, (l.column fld)[i]? = some x ∧
        x = reported ((thal p c.oligo_f c.oligo_r c.a c.o c.print_output).field fld) ∧
        (isNA x = true →
          (thal p c.oligo_f c.oligo_r c.a c.o c.print_output).field fld = none ∨
          (thal p c.oligo_f c.oligo_r c.a c.o c.print_output).field fld = some NULL_REAL ∨
          (thal p c.oligo_f c.oligo_r c.a c.o c.print_output).field fld = some x) := by
  obtain ⟨l, calls, c, r, hok, hc, hr, _, hf⟩ := call_thal_item_fields thal p results0
    oligo1 oligo2 debug alignment_type maxloop mv dv dntp dna temp temp_only dimer
    print_output (by omega) i hi
  refine ⟨l, calls, c, hok, hc, ?_⟩
  intro fld
  refine ⟨r.field fld, column_of_row l i r fld hr, hf fld, ?_⟩
  intro hna
  rw [hf fld] at hna ⊢
  exact reported_missing _ hna

/-- C1 amended, at the second item of a batch of two. -/
theorem call_thal_reported_witness :
    ["ACGT", "GGCC"].length = ["ACGT", "GGCC"].length ∧ 1 < ["ACGT", "GGCC"].length ∧
    ∃ l calls c, call_thal thal_temp_only loaded results_zero ["ACGT", "GGCC"] ["ACGT", "GGCC"] 0 1 30 dbl_50 Double.zero Double.zero
        dbl_50 dbl_37 0 1 0 = .ok (l, calls) ∧
      calls[1]? = some c ∧
      ∀ fld, ∃ x, (l.column fld)[1]? = some x ∧
        x = reported ((thal_temp_only loaded c.oligo_f c.oligo_r c.a c.o c.print_output).field fld) ∧
        (isNA x = true →
          (thal_temp_only loaded c.oligo_f c.oligo_r c.a c.o c.print_output).field fld = none ∨
          (thal_temp_only loaded c.oligo_f c.oligo_r c.a c.o c.print_output).field fld = some NULL_REAL ∨
          (thal_temp_only loaded c.oligo_f c.oligo_r c.a c.o c.print_output).field fld = some x) :=
  ⟨rfl, by decide, call_thal_reported thal_temp_only loaded results_zero
    ["ACGT", "GGCC"] ["ACGT", "GGCC"] 0 1 30 dbl_50 Double.zero Double.zero dbl_50
    dbl_37 0 1 0 rfl 1 (by decide)⟩

/-- C3, at the batch `["ACGT", ""]`, `["ACGT", ""]` with a `thal` that returns
on an empty sequence without storing the flag or the alignment ends: row 1 of
the batch carries the alignment ends 4, 4 that item 0 left in `results`, while
the one-element call on the same pair gives the initial content of `results`
(here 0, 0); the two rows differ. -/
theorem call_thal_stale_row :
    ∃ l calls l1 calls1,
      call_thal thal_skip_empty loaded results_zero ["ACGT", ""] ["ACGT", ""]
        0 1 30 dbl_50 Double.zero Double.zero
        dbl_50 dbl_37 0 1 0 = .ok (l, calls) ∧
      call_thal thal_skip_empty loaded results_zero [""] [""]
        0 1 30 dbl_50 Double.zero Double.zero
        dbl_50 dbl_37 0 1 0 = .ok (l1, calls1) ∧
      l.row 1 = some ⟨true, NA_REAL, NA_REAL, NA_REAL, NA_REAL, 4, 4⟩ ∧
      l1.row 0 = some ⟨true, NA_REAL, NA_REAL, NA_REAL, NA_REAL, 0, 0⟩ ∧
      l.row 1 ≠ l1.row 0 :=
  ⟨_, _, _, _, rfl, rfl, rfl, rfl, by decide⟩

/-- C5 fails as stated: with no table loaded (`is_thal_init` returns 0),
`call_thal` on a one-element batch reports no error, calls `thal` once and
returns the row computed from what `thal` stored. -/
theorem call_thal_runs_unloaded :
    is_thal_init unloaded = 0 ∧
    ∃ l calls, call_thal thal_full unloaded results_zero ["ACGT"] ["ACGT"]
        0 1 30 dbl_50 Double.zero Double.zero
        dbl_50 dbl_37 0 1 0 = .ok (l, calls) ∧
      calls.length = 1 ∧ l.temp = [dbl_37] ∧ l.structure_found = [true] :=
  ⟨rfl, _, _, rfl, rfl, rfl, rfl⟩

/-- C5, amended: when the parameter table is not loaded (`is_thal_init`
returns 0), `call_thal` reports no usage error of its own: on every batch whose
`oligo2` is at least as long as `oligo1` it still calls `thal` once per item,
in that unloaded state, and returns for each item the row converted from the
struct `thal` left. The check of `is_thal_init` is left to the caller. -/
theorem call_thal_unloaded (thal : Thal) (p : Process) (results0 : thal_results)
    (oligo1 oligo2 : List String) (debug alignment_type maxloop : Int)
    (mv dv dntp dna temp : Double) (temp_only dimer print_output : Int)
    (hlen : oligo1.length ≤ oligo2.length) :
    is_thal_init p = 0 →
    ∃ l calls, call_thal thal p results0 oligo1 oligo2 debug alignment_type maxloop mv dv dntp
        dna temp temp_only dimer print_output = .ok (l, calls) ∧
      calls.length = oligo1.length ∧
      ∀ i, i < oligo1.length → ∃ c, calls[i]? = some c ∧
        l.row i = some (to_row
          ((thal p c.oligo_f c.oligo_r c.a c.o c.print_output).store c.o)) := by
  intro _
  refine ⟨_, _, call_thal_eq thal p results0
    oligo1 oligo2 debug alignment_type maxloop mv dv dntp dna temp temp_only dimer
    print_output hlen, by simp, ?_⟩
  intro i hi
  refine ⟨_, getElem?_range_map _ _ _ hi, ?_⟩
  rw [← row_at_eq]
  exact row_of_rows _ _ _ (getElem?_range_map _ _ _ hi)

/-- C5 amended, at a one-element batch in a process without a table. -/
theorem call_thal_unloaded_witness :
    ["ACGT"].length ≤ ["ACGT", "GGCC"].length ∧ is_thal_init unloaded = 0 ∧
    ∃ l calls, call_thal thal_full unloaded results_zero ["ACGT"] ["ACGT", "GGCC"] 0 1 30 dbl_50 Double.zero Double.zero
        dbl_50 dbl_37 0 1 0 = .ok (l, calls) ∧
      calls.length = ["ACGT"].length ∧
      ∀ i, i < ["ACGT"].length → ∃ c, calls[i]? = some c ∧
        l.row i = some (to_row
          ((thal_full unloaded c.oligo_f c.oligo_r c.a c.o c.print_output).store c.o)) :=
  ⟨by decide, rfl, call_thal_unloaded thal_full unloaded results_zero
    ["ACGT"] ["ACGT", "GGCC"] 0 1 30 dbl_50 Double.zero Double.zero dbl_50
    dbl_37 0 1 0 (by decide) rfl⟩

end Primer3
